import Mathlib

/-!
Verification development for the WealthWise personal-finance tracker.

This file embeds the deterministic business logic of the repository in Lean:
the streak/login-reward engine (server auth module, `POST /api/auth/login` and
`POST /api/auth/register` handlers), the fallback expense-tier classifier
(`fallbackStatusDetermination` in the server AI module), the weekly savings
target history (`generateWeeklyTargets` in `client/src/pages/Savings.tsx` and
`calculateSavingsRecommendation` in the client AI utilities), the goal update
endpoint (`PUT /api/goals/:id` plus the client allocation flow in
`GoalCard.tsx`), the monthly-report aggregation, and the coin-award write
pattern used by the storage layer (`MemStorage.updateUser` /
`DatabaseStorage.updateUser`).

Conventions of the embedding:
* Money is an integer count of paise (minor units), as stored.
* Timestamps are integers: milliseconds since the Unix epoch for the login
  engine (mirroring `Date.getTime()`), and whole days for the week-window
  calculator (with the convention that day numbers divisible by 7 fall on a
  Monday, mirroring `startOfWeek(..., weekStartsOn: 1)`).
* JavaScript floating-point arithmetic on these integer quantities is modelled
  exactly with `ℚ`: for the magnitudes involved (integer paise and
  millisecond gaps well below 2^53) the double-precision comparisons and
  `Math.round` results in the source coincide with the exact rational values.
* `Math.round` (round half toward positive infinity) is `Int.floor (q + 1/2)`.
* JavaScript `%` (truncating remainder) is `Int.tmod`.
-/

namespace WealthWise

/-- Expense necessity tier, from the `expense_status` enum in
`shared/schema.ts`: exactly one of necessary / avoidable / unnecessary. -/
inductive ExpenseStatus where
  | necessary
  | avoidable
  | unnecessary
deriving DecidableEq, Repr

/-- JavaScript `Math.round`: rounds to the nearest integer, halves toward
positive infinity. -/
def jsRound (q : ℚ) : Int := Int.floor (q + 1 / 2)

/-- Milliseconds in one hour, the divisor `1000 * 60 * 60` used by the login
handler to turn a millisecond gap into hours. -/
def msPerHour : Int := 1000 * 60 * 60

/-- Persisted user fields read and written by the streak engine
(`users` table in `shared/schema.ts`): coin balance, consecutive-day streak,
and optional last-login timestamp in ms since epoch. -/
structure User where
  coins : Int
  streak : Int
  lastLogin : Option Int
deriving DecidableEq, Repr

/-- The user state written back by the login handler together with the
`coinsAwarded` figure reported in the response body. -/
structure LoginOutcome where
  coins : Int
  streak : Int
  lastLogin : Option Int
  coinsAwarded : Int
deriving DecidableEq, Repr

/-- `const lastLogin = user.lastLogin || new Date(0)` followed by
`(now.getTime() - lastLogin.getTime()) / (1000 * 60 * 60)`: the hour gap the
login handler computes, with an absent `lastLogin` defaulting to the epoch. -/
def hoursSinceLastLogin (u : User) (now : Int) : ℚ :=
  ((now - u.lastLogin.getD 0 : Int) : ℚ) / (1000 * 60 * 60)

/-- The 20-coin milestone bonus of the increment branch:
`if (newStreak === 5 || newStreak % 5 === 0) coinsAwarded += 20`. -/
def streakBonus (newStreak : Int) : Int :=
  if newStreak = 5 ∨ newStreak.tmod 5 = 0 then 20 else 0

/-- The login transition of `POST /api/auth/login` (server auth module):
branch on the hour gap (`> 20`, then `< 48`), compute the new streak and the
coins awarded, then unconditionally call
`storage.updateUser(user.id, { lastLogin: now, streak: newStreak, coins: user.coins + coinsAwarded })`.
Note that the `updateUser` call - including the `lastLogin: now` field - is
outside the `if (hoursSinceLastLogin > 20)` guard in the source. -/
def loginTransition (u : User) (now : Int) : LoginOutcome :=
  if 20 < hoursSinceLastLogin u now then
    if hoursSinceLastLogin u now < 48 then
      { coins := u.coins + (15 + streakBonus (u.streak + 1))
        streak := u.streak + 1
        lastLogin := some now
        coinsAwarded := 15 + streakBonus (u.streak + 1) }
    else
      { coins := u.coins + 15
        streak := 1
        lastLogin := some now
        coinsAwarded := 15 }
  else
    { coins := u.coins
      streak := u.streak
      lastLogin := some now
      coinsAwarded := 0 }

/-- The hour-gap comparison `h < gap / msPerHour` is the millisecond
comparison `h * msPerHour < gap`. -/
lemma lt_hours_iff (gap h : Int) :
    ((h : ℚ) < (gap : ℚ) / (1000 * 60 * 60)) ↔ h * msPerHour < gap := by
  rw [lt_div_iff₀ (by norm_num : (0 : ℚ) < 1000 * 60 * 60)]
  constructor
  · intro hx
    have : ((h * msPerHour : Int) : ℚ) < (gap : ℚ) := by
      push_cast [msPerHour]
      linarith
    exact_mod_cast this
  · intro hx
    have : ((h * msPerHour : Int) : ℚ) < (gap : ℚ) := by exact_mod_cast hx
    push_cast [msPerHour] at this
    linarith

/-- The hour-gap comparison `gap / msPerHour < h` is the millisecond
comparison `gap < h * msPerHour`. -/
lemma hours_lt_iff (gap h : Int) :
    ((gap : ℚ) / (1000 * 60 * 60) < (h : ℚ)) ↔ gap < h * msPerHour := by
  rw [div_lt_iff₀ (by norm_num : (0 : ℚ) < 1000 * 60 * 60)]
  constructor
  · intro hx
    have : (gap : ℚ) < ((h * msPerHour : Int) : ℚ) := by
      push_cast [msPerHour]
      linarith
    exact_mod_cast this
  · intro hx
    have : (gap : ℚ) < ((h * msPerHour : Int) : ℚ) := by exact_mod_cast hx
    push_cast [msPerHour] at this
    linarith

/-- Guard-band branch of the login transition, as the source computes it. -/
lemma loginTransition_guard (u : User) (now : Int)
    (h : now - u.lastLogin.getD 0 ≤ 20 * msPerHour) :
    loginTransition u now =
      { coins := u.coins, streak := u.streak, lastLogin := some now
        coinsAwarded := 0 } := by
  have hnot : ¬ (20 < hoursSinceLastLogin u now) := by
    rw [hoursSinceLastLogin]
    rw [show ((20 : ℚ)) = ((20 : Int) : ℚ) by norm_num]
    rw [lt_hours_iff]
    omega
  rw [loginTransition, if_neg hnot]

/-- Increment branch of the login transition, as the source computes it. -/
lemma loginTransition_increment (u : User) (now : Int)
    (h1 : 20 * msPerHour < now - u.lastLogin.getD 0)
    (h2 : now - u.lastLogin.getD 0 < 48 * msPerHour) :
    loginTransition u now =
      { coins := u.coins + (15 + streakBonus (u.streak + 1))
        streak := u.streak + 1
        lastLogin := some now
        coinsAwarded := 15 + streakBonus (u.streak + 1) } := by
  have hgt : 20 < hoursSinceLastLogin u now := by
    rw [hoursSinceLastLogin]
    rw [show ((20 : ℚ)) = ((20 : Int) : ℚ) by norm_num]
    rw [lt_hours_iff]
    omega
  have hlt : hoursSinceLastLogin u now < 48 := by
    rw [hoursSinceLastLogin]
    rw [show ((48 : ℚ)) = ((48 : Int) : ℚ) by norm_num]
    rw [hours_lt_iff]
    omega
  rw [loginTransition, if_pos hgt, if_pos hlt]

/-- Reset branch of the login transition, as the source computes it. -/
lemma loginTransition_reset (u : User) (now : Int)
    (h : 48 * msPerHour ≤ now - u.lastLogin.getD 0) :
    loginTransition u now =
      { coins := u.coins + 15, streak := 1, lastLogin := some now
        coinsAwarded := 15 } := by
  have hgt : 20 < hoursSinceLastLogin u now := by
    rw [hoursSinceLastLogin]
    rw [show ((20 : ℚ)) = ((20 : Int) : ℚ) by norm_num]
    rw [lt_hours_iff]
    have : (0 : Int) < msPerHour := by norm_num [msPerHour]
    nlinarith
  have hlt : ¬ (hoursSinceLastLogin u now < 48) := by
    rw [hoursSinceLastLogin]
    rw [show ((48 : ℚ)) = ((48 : Int) : ℚ) by norm_num]
    rw [hours_lt_iff]
    omega
  rw [loginTransition, if_pos hgt, if_neg hlt]

/-- C1 counterexample: a login 10 hours after the persisted `lastLogin`
(user `{coins 100, streak 3, lastLogin epoch}`, login at epoch + 10h) leaves
streak and coins alone but rewrites `lastLogin`, because the handler calls
`storage.updateUser` with `lastLogin: now` outside the guard - so the guard
band is not a complete no-op on user state, refuting the claim as stated. -/
theorem c1_guard_band_rewrites_lastLogin :
    (36000000 : Int) - 0 ≤ 20 * msPerHour ∧
    (loginTransition { coins := 100, streak := 3, lastLogin := some 0 }
        36000000).lastLogin ≠
      ({ coins := 100, streak := 3, lastLogin := some 0 } : User).lastLogin ∧
    (loginTransition { coins := 100, streak := 3, lastLogin := some 0 }
        36000000).streak = 3 ∧
    (loginTransition { coins := 100, streak := 3, lastLogin := some 0 }
        36000000).coins = 100 := by
  have h := loginTransition_guard { coins := 100, streak := 3, lastLogin := some 0 }
    36000000 (by norm_num [msPerHour])
  refine ⟨by norm_num [msPerHour], ?_, ?_, ?_⟩
  · rw [h]; decide
  · rw [h]
  · rw [h]

/-- C1 (amended): for every login within 20 hours of the persisted
`lastLogin`, streak and coins are unchanged and zero coins are awarded, but
`lastLogin` is unconditionally rewritten to the login time (the write happens
on every login, not only inside the increment/reset branches). -/
theorem c1_guard_band_no_award (u : User) (now ll : Int)
    (hll : u.lastLogin = some ll) (hgap : now - ll ≤ 20 * msPerHour) :
    (loginTransition u now).streak = u.streak ∧
    (loginTransition u now).coins = u.coins ∧
    (loginTransition u now).coinsAwarded = 0 ∧
    (loginTransition u now).lastLogin = some now := by
  have h := loginTransition_guard u now (by rw [hll]; simpa using hgap)
  rw [h]
  exact ⟨rfl, rfl, rfl, rfl⟩

/-- C1 witness: the amended theorem applied at a concrete login 10 hours
after the persisted lastLogin. -/
theorem c1_guard_band_no_award_witness :
    (loginTransition { coins := 100, streak := 3, lastLogin := some 0 }
        36000000).streak = 3 ∧
    (loginTransition { coins := 100, streak := 3, lastLogin := some 0 }
        36000000).coins = 100 ∧
    (loginTransition { coins := 100, streak := 3, lastLogin := some 0 }
        36000000).coinsAwarded = 0 ∧
    (loginTransition { coins := 100, streak := 3, lastLogin := some 0 }
        36000000).lastLogin = some 36000000 :=
  c1_guard_band_no_award { coins := 100, streak := 3, lastLogin := some 0 }
    36000000 0 rfl (by norm_num [msPerHour])

/-- C2: reset and increment branches of the login transition. With
`lastLogin` absent (defaulted to the epoch by the handler, so the branch is
taken whenever the wall clock is at least 48 hours past the epoch) or at
least 48 hours in the past, streak is set to 1 and exactly 15 coins are
awarded with no milestone bonus; with a gap strictly between 20 and 48 hours,
streak is incremented by 1 and 15 base coins plus the (possibly zero)
milestone bonus are awarded; in both branches `lastLogin` becomes `now` and
coins grow by exactly the awarded amount. -/
theorem c2_reset_and_increment_branches (u : User) (now : Int) :
    (u.lastLogin = none → 48 * msPerHour ≤ now →
      (loginTransition u now).streak = 1 ∧
      (loginTransition u now).coinsAwarded = 15 ∧
      (loginTransition u now).lastLogin = some now ∧
      (loginTransition u now).coins = u.coins + 15) ∧
    (∀ ll, u.lastLogin = some ll → 48 * msPerHour ≤ now - ll →
      (loginTransition u now).streak = 1 ∧
      (loginTransition u now).coinsAwarded = 15 ∧
      (loginTransition u now).lastLogin = some now ∧
      (loginTransition u now).coins = u.coins + 15) ∧
    (∀ ll, u.lastLogin = some ll → 20 * msPerHour < now - ll →
        now - ll < 48 * msPerHour →
      (loginTransition u now).streak = u.streak + 1 ∧
      (loginTransition u now).coinsAwarded = 15 + streakBonus (u.streak + 1) ∧
      (loginTransition u now).lastLogin = some now ∧
      (loginTransition u now).coins = u.coins + (loginTransition u now).coinsAwarded) := by
  refine ⟨?_, ?_, ?_⟩
  · intro hnone hlate
    have h := loginTransition_reset u now (by rw [hnone]; simpa using hlate)
    rw [h]
    exact ⟨rfl, rfl, rfl, rfl⟩
  · intro ll hsome hlate
    have h := loginTransition_reset u now (by rw [hsome]; simpa using hlate)
    rw [h]
    exact ⟨rfl, rfl, rfl, rfl⟩
  · intro ll hsome h1 h2
    have h := loginTransition_increment u now (by rw [hsome]; simpa using h1)
      (by rw [hsome]; simpa using h2)
    rw [h]
    exact ⟨rfl, rfl, rfl, rfl⟩

/-- C2 witness: the reset branch at a 49-hour gap (streak resets to 1, 15
coins) and the increment branch at a 25-hour gap, instantiated concretely. -/
theorem c2_reset_and_increment_branches_witness :
    (loginTransition { coins := 40, streak := 7, lastLogin := some 0 }
        (49 * msPerHour)).streak = 1 ∧
    (loginTransition { coins := 40, streak := 7, lastLogin := some 0 }
        (49 * msPerHour)).coinsAwarded = 15 ∧
    (loginTransition { coins := 40, streak := 7, lastLogin := some 0 }
        (49 * msPerHour)).lastLogin = some (49 * msPerHour) ∧
    (loginTransition { coins := 40, streak := 7, lastLogin := some 0 }
        (49 * msPerHour)).coins = 40 + 15 := by
  have h := (c2_reset_and_increment_branches
      { coins := 40, streak := 7, lastLogin := some 0 } (49 * msPerHour)).2.1
      0 rfl (by norm_num [msPerHour])
  exact h

/-- C3: milestone bonus arithmetic on the increment branch. When the
incremented streak is exactly 5 or any positive multiple of 5, the single
transition awards 35 coins (15 base + 20 bonus); when the new streak is not a
multiple of 5 the award is exactly 15; and the reset branch always awards
exactly 15, never the bonus. The `0 ≤ u.streak` hypothesis is the stored
invariant (streak starts at 0 and is only ever set to 1 or incremented). -/
theorem c3_streak_milestone_bonus (u : User) (now : Int) (hstreak : 0 ≤ u.streak) :
    (∀ ll, u.lastLogin = some ll → 20 * msPerHour < now - ll →
        now - ll < 48 * msPerHour →
      ((u.streak + 1 = 5 ∨ ∃ k : Int, 1 ≤ k ∧ u.streak + 1 = 5 * k) →
        (loginTransition u now).coinsAwarded = 35) ∧
      ((∀ k : Int, u.streak + 1 ≠ 5 * k) →
        (loginTransition u now).coinsAwarded = 15)) ∧
    (48 * msPerHour ≤ now - u.lastLogin.getD 0 →
      (loginTransition u now).coinsAwarded = 15) := by
  constructor
  · intro ll hsome h1 h2
    have h := loginTransition_increment u now (by rw [hsome]; simpa using h1)
      (by rw [hsome]; simpa using h2)
    rw [h]
    constructor
    · rintro (h5 | ⟨k, hk, hmul⟩)
      · simp [streakBonus, h5]
      · have htm : (u.streak + 1).tmod 5 = 0 := by
          rw [hmul]
          exact Int.mul_tmod_right 5 k
        simp [streakBonus, htm]
    · intro hnot
      have htm : (u.streak + 1).tmod 5 ≠ 0 := by
        rw [Int.tmod_eq_emod (a := u.streak + 1) (b := 5) (by omega) (by omega)]
        intro hmod
        have hdvd : (5 : Int) ∣ u.streak + 1 := Int.dvd_of_emod_eq_zero hmod
        obtain ⟨k, hk⟩ := hdvd
        exact hnot k hk
      have h5 : u.streak + 1 ≠ 5 := fun h5 => hnot 1 (by omega)
      simp [streakBonus, htm, h5]
  · intro hlate
    have h := loginTransition_reset u now hlate
    rw [h]

/-- C3 witness: streak 4 -> 5 at a 25-hour gap awards 35 coins; streak
5 -> 6 awards 15; a reset after 49 hours awards 15. -/
theorem c3_streak_milestone_bonus_witness :
    (loginTransition { coins := 0, streak := 4, lastLogin := some 0 }
        (25 * msPerHour)).coinsAwarded = 35 ∧
    (loginTransition { coins := 0, streak := 5, lastLogin := some 0 }
        (25 * msPerHour)).coinsAwarded = 15 ∧
    (loginTransition { coins := 0, streak := 4, lastLogin := some 0 }
        (49 * msPerHour)).coinsAwarded = 15 := by
  refine ⟨?_, ?_, ?_⟩
  · exact ((c3_streak_milestone_bonus
      { coins := 0, streak := 4, lastLogin := some 0 } (25 * msPerHour)
      (by norm_num)).1 0 rfl (by norm_num [msPerHour])
      (by norm_num [msPerHour])).1 (Or.inl rfl)
  · exact ((c3_streak_milestone_bonus
      { coins := 0, streak := 5, lastLogin := some 0 } (25 * msPerHour)
      (by norm_num)).1 0 rfl (by norm_num [msPerHour])
      (by norm_num [msPerHour])).2 (by intro k; show (5 : Int) + 1 ≠ 5 * k; omega)
  · exact (c3_streak_milestone_bonus
      { coins := 0, streak := 4, lastLogin := some 0 } (49 * msPerHour)
      (by norm_num)).2 (by norm_num [msPerHour])

/-- Client-suppliable registration fields that could collide with the
server-set ones. The `POST /api/auth/register` handler builds
`{...req.body, password: hashed, coins: 0, streak: 0, lastLogin: new Date()}`,
so the explicit fields listed after the spread always win. -/
structure RegisterRequest where
  coins : Option Int
  streak : Option Int
  lastLogin : Option Int
deriving DecidableEq, Repr

/-- The user record created by `POST /api/auth/register`: whatever the client
supplied, the handler overrides `coins` with 0, `streak` with 0 and
`lastLogin` with the registration time, and the storage layer persists those
values as given (`DatabaseStorage.createUser` inserts them unchanged;
`MemStorage.createUser` applies `?? 0` / `?? new Date()` defaults that leave
the provided values intact). -/
def registerUser (_r : RegisterRequest) (now : Int) : User :=
  { coins := 0, streak := 0, lastLogin := some now }

/-- C10: registration always stores coins 0, streak 0 and a present
`lastLogin` equal to the registration time; hence a first login within 20
hours of registering awards 0 coins and leaves streak at 0, and the
streak-1-with-15-coins path of the login transition is reachable only when
the (epoch-defaulted) `lastLogin` lies more than 20 hours in the past. -/
theorem c10_registration_seeds_guard_band (r : RegisterRequest) (now t : Int) :
    (registerUser r now).coins = 0 ∧
    (registerUser r now).streak = 0 ∧
    (registerUser r now).lastLogin = some now ∧
    (t - now ≤ 20 * msPerHour →
      (loginTransition (registerUser r now) t).coinsAwarded = 0 ∧
      (loginTransition (registerUser r now) t).streak = 0 ∧
      (loginTransition (registerUser r now) t).coins = 0) ∧
    (∀ u : User, (loginTransition u t).coinsAwarded ≠ 0 →
      20 * msPerHour < t - u.lastLogin.getD 0) := by
  refine ⟨rfl, rfl, rfl, ?_, ?_⟩
  · intro hgap
    have h := loginTransition_guard (registerUser r now) t (by simpa using hgap)
    rw [h]
    exact ⟨rfl, rfl, rfl⟩
  · intro u hawarded
    by_contra hgap
    push_neg at hgap
    have h := loginTransition_guard u t hgap
    rw [h] at hawarded
    exact hawarded rfl

/-- C10 witness: register at the epoch, log in 10 hours later - no coins,
streak stays 0. -/
theorem c10_registration_seeds_guard_band_witness :
    (registerUser { coins := some 999, streak := some 9, lastLogin := some 1 } 0).coins = 0 ∧
    (loginTransition (registerUser
        { coins := some 999, streak := some 9, lastLogin := some 1 } 0)
        36000000).coinsAwarded = 0 ∧
    (loginTransition (registerUser
        { coins := some 999, streak := some 9, lastLogin := some 1 } 0)
        36000000).streak = 0 := by
  have h := c10_registration_seeds_guard_band
    { coins := some 999, streak := some 9, lastLogin := some 1 } 0 36000000
  exact ⟨h.1, (h.2.2.2.1 (by norm_num [msPerHour])).1,
    (h.2.2.2.1 (by norm_num [msPerHour])).2.1⟩

/-- Categories that tend to be necessary (server AI module,
`fallbackStatusDetermination`). -/
def necessaryCategories : List String :=
  ["groceries", "utilities", "housing", "health", "transportation", "bills", "education"]

/-- Categories that could be avoidable depending on amount. -/
def potentiallyAvoidableCategories : List String :=
  ["food_and_drinks", "personal_care", "investment"]

/-- Categories that tend to be unnecessary. -/
def unnecessaryCategories : List String :=
  ["entertainment", "shopping", "travel", "gifts"]

/-- The rule-based fallback classifier `fallbackStatusDetermination(category,
amount)` from the server AI module: convert paise to rupees
(`amount / 100`), then pick a tier from the category set and a rupee
threshold. -/
def fallbackStatusDetermination (category : String) (amount : Int) : ExpenseStatus :=
  if necessaryCategories.contains category then
    if 5000 < (amount : ℚ) / 100 then .avoidable else .necessary
  else if potentiallyAvoidableCategories.contains category then
    if 1000 < (amount : ℚ) / 100 then .avoidable else .necessary
  else if unnecessaryCategories.contains category then
    if 2000 < (amount : ℚ) / 100 then .unnecessary else .avoidable
  else
    if 3000 < (amount : ℚ) / 100 then .unnecessary else .avoidable

/-- The rupee-threshold comparison `T < amount / 100` on exact rationals is
the paise comparison `T * 100 < amount`. -/
lemma lt_div_hundred_iff (a T : Int) :
    ((T : ℚ) < (a : ℚ) / 100) ↔ T * 100 < a := by
  rw [lt_div_iff₀ (by norm_num : (0 : ℚ) < 100)]
  constructor
  · intro hx
    have : ((T * 100 : Int) : ℚ) < (a : ℚ) := by push_cast; linarith
    exact_mod_cast this
  · intro hx
    have : ((T * 100 : Int) : ℚ) < (a : ℚ) := by exact_mod_cast hx
    push_cast at this
    linarith

/-- C5: the fallback tier classifier follows the fixed rule table. It always
returns one of the three tiers; the seven necessary-leaning categories give
avoidable above ₹5000 (500000 paise) else necessary; the three
context-dependent categories give avoidable above ₹1000 else necessary; the
four discretionary categories give unnecessary above ₹2000 else avoidable;
every other category gives unnecessary above ₹3000 else avoidable; and
concretely, entertainment at ₹500 is avoidable while entertainment at ₹2500
is unnecessary. -/
theorem c5_fallback_rule_table (c : String) (a : Int) :
    (fallbackStatusDetermination c a = ExpenseStatus.necessary ∨
     fallbackStatusDetermination c a = ExpenseStatus.avoidable ∨
     fallbackStatusDetermination c a = ExpenseStatus.unnecessary) ∧
    (c ∈ necessaryCategories →
      fallbackStatusDetermination c a =
        if 5000 * 100 < a then ExpenseStatus.avoidable else ExpenseStatus.necessary) ∧
    (c ∈ potentiallyAvoidableCategories →
      fallbackStatusDetermination c a =
        if 1000 * 100 < a then ExpenseStatus.avoidable else ExpenseStatus.necessary) ∧
    (c ∉ necessaryCategories → c ∉ potentiallyAvoidableCategories →
        c ∈ unnecessaryCategories →
      fallbackStatusDetermination c a =
        if 2000 * 100 < a then ExpenseStatus.unnecessary else ExpenseStatus.avoidable) ∧
    (c ∉ necessaryCategories → c ∉ potentiallyAvoidableCategories →
        c ∉ unnecessaryCategories →
      fallbackStatusDetermination c a =
        if 3000 * 100 < a then ExpenseStatus.unnecessary else ExpenseStatus.avoidable) ∧
    fallbackStatusDetermination "entertainment" 50000 = ExpenseStatus.avoidable ∧
    fallbackStatusDetermination "entertainment" 250000 = ExpenseStatus.unnecessary := by
  have hiff : ∀ T : Int, ((T : ℚ) < (a : ℚ) / 100) ↔ T * 100 < a :=
    fun T => lt_div_hundred_iff a T
  refine ⟨?_, ?_, ?_, ?_, ?_, ?_, ?_⟩
  · unfold fallbackStatusDetermination
    split
    · split
      · exact Or.inr (Or.inl rfl)
      · exact Or.inl rfl
    · split
      · split
        · exact Or.inr (Or.inl rfl)
        · exact Or.inl rfl
      · split
        · split
          · exact Or.inr (Or.inr rfl)
          · exact Or.inr (Or.inl rfl)
        · split
          · exact Or.inr (Or.inr rfl)
          · exact Or.inr (Or.inl rfl)
  · intro hmem
    have hc : necessaryCategories.contains c = true :=
      List.elem_eq_true_of_mem hmem
    have h5 : ((5000 : ℚ) < (a : ℚ) / 100) ↔ ((5000 : Int) * 100 < a) := by
      exact_mod_cast hiff 5000
    unfold fallbackStatusDetermination
    simp only [hc, if_true, h5]
  · intro hmem
    have hc : potentiallyAvoidableCategories.contains c = true :=
      List.elem_eq_true_of_mem hmem
    have hnc : necessaryCategories.contains c = false := by
      fin_cases hmem <;> decide
    have h1 : ((1000 : ℚ) < (a : ℚ) / 100) ↔ ((1000 : Int) * 100 < a) := by
      exact_mod_cast hiff 1000
    unfold fallbackStatusDetermination
    simp only [hc, hnc, Bool.false_eq_true, if_false, if_true, h1]
  · intro hn1 hn2 hmem
    have hc : unnecessaryCategories.contains c = true :=
      List.elem_eq_true_of_mem hmem
    have hnc1 : necessaryCategories.contains c = false := by
      show List.elem c necessaryCategories = false
      simp [List.elem_eq_mem, hn1]
    have hnc2 : potentiallyAvoidableCategories.contains c = false := by
      show List.elem c potentiallyAvoidableCategories = false
      simp [List.elem_eq_mem, hn2]
    have h2 : ((2000 : ℚ) < (a : ℚ) / 100) ↔ ((2000 : Int) * 100 < a) := by
      exact_mod_cast hiff 2000
    unfold fallbackStatusDetermination
    simp only [hc, hnc1, hnc2, Bool.false_eq_true, if_false, if_true, h2]
  · intro hn1 hn2 hn3
    have hnc1 : necessaryCategories.contains c = false := by
      show List.elem c necessaryCategories = false
      simp [List.elem_eq_mem, hn1]
    have hnc2 : potentiallyAvoidableCategories.contains c = false := by
      show List.elem c potentiallyAvoidableCategories = false
      simp [List.elem_eq_mem, hn2]
    have hnc3 : unnecessaryCategories.contains c = false := by
      show List.elem c unnecessaryCategories = false
      simp [List.elem_eq_mem, hn3]
    have h3 : ((3000 : ℚ) < (a : ℚ) / 100) ↔ ((3000 : Int) * 100 < a) := by
      exact_mod_cast hiff 3000
    unfold fallbackStatusDetermination
    simp only [hnc1, hnc2, hnc3, Bool.false_eq_true, if_false, h3]
  · unfold fallbackStatusDetermination
    norm_num [necessaryCategories, potentiallyAvoidableCategories,
      unnecessaryCategories, List.contains_eq_any_beq]
    decide
  · unfold fallbackStatusDetermination
    norm_num [necessaryCategories, potentiallyAvoidableCategories,
      unnecessaryCategories, List.contains_eq_any_beq]
    decide

/-- C5 witness: groceries at ₹6000 is avoidable, groceries at ₹100 is
necessary, and the category "other" at ₹3500 is unnecessary, all via the rule
table. -/
theorem c5_fallback_rule_table_witness :
    fallbackStatusDetermination "groceries" 600000 = ExpenseStatus.avoidable ∧
    fallbackStatusDetermination "groceries" 10000 = ExpenseStatus.necessary ∧
    fallbackStatusDetermination "other" 350000 = ExpenseStatus.unnecessary := by
  refine ⟨?_, ?_, ?_⟩
  · rw [(c5_fallback_rule_table "groceries" 600000).2.1 (by decide)]
    norm_num
  · rw [(c5_fallback_rule_table "groceries" 10000).2.1 (by decide)]
    norm_num
  · rw [(c5_fallback_rule_table "other" 350000).2.2.2.2.1
      (by decide) (by decide) (by decide)]
    norm_num

/-- Goal row fields relevant to completion and allocation (`goals` table in
`shared/schema.ts`). -/
structure Goal where
  currentAmount : Int
  targetAmount : Int
  completed : Bool
deriving DecidableEq, Repr

/-- Achievement row fields relevant to goal completion (`achievements` table):
the type tag and the coins recorded on the award. -/
structure Achievement where
  type : String
  coinsAwarded : Int
deriving DecidableEq, Repr

/-- The update body a client may send to `PUT /api/goals/:id`. The handler
forwards `req.body` to `storage.updateGoal` without filtering, so any subset
of goal fields may appear; the two the claims concern are modelled. -/
structure GoalUpdateBody where
  currentAmount : Option Int
  completed : Option Bool
deriving DecidableEq, Repr

/-- `MemStorage.updateGoal` / `DatabaseStorage.updateGoal`: merge the partial
update into the stored row (`{ ...goal, ...data }` / `set(data)`), present
fields winning. -/
def updateGoal (g : Goal) (b : GoalUpdateBody) : Goal :=
  { currentAmount := b.currentAmount.getD g.currentAmount
    targetAmount := g.targetAmount
    completed := b.completed.getD g.completed }

/-- The server-side state touched by one `PUT /api/goals/:id` request: the
owner's coin balance, the goal row, and the owner's achievement rows. -/
structure GoalPutState where
  userCoins : Int
  goal : Goal
  achievements : List Achievement
deriving DecidableEq, Repr

/-- The `PUT /api/goals/:id` handler (`server/routes.ts`): when
`req.body.completed === true && !goal.completed`, add 100 coins to the user
and append one `goal_met` achievement; in every case merge `req.body` into
the goal via `storage.updateGoal`. -/
def putGoal (st : GoalPutState) (b : GoalUpdateBody) : GoalPutState :=
  if b.completed = some true ∧ st.goal.completed = false then
    { userCoins := st.userCoins + 100
      goal := updateGoal st.goal b
      achievements := st.achievements ++ [{ type := "goal_met", coinsAwarded := 100 }] }
  else
    { userCoins := st.userCoins
      goal := updateGoal st.goal b
      achievements := st.achievements }

/-- The body built by the client allocation flow
(`GoalCard.handleAllocationConfirm`): `currentAmount := goal.currentAmount +
amountInPaise` and `completed := newTotal >= goal.targetAmount`. -/
def allocationBody (g : Goal) (amount : Int) : GoalUpdateBody :=
  { currentAmount := some (g.currentAmount + amount)
    completed := some (decide (g.targetAmount ≤ g.currentAmount + amount)) }

/-- An allocation is the client body sent through the goal update endpoint. -/
def allocate (st : GoalPutState) (amount : Int) : GoalPutState :=
  putGoal st (allocationBody st.goal amount)

/-- Client-suppliable fields of `POST /api/goals`; `insertGoalSchema` omits
`currentAmount` and `completed`, and both storage implementations force them
to 0 / false on insert, so the request values are modelled but ignored. -/
structure GoalInsertRequest where
  targetAmount : Int
  currentAmount : Option Int
  completed : Option Bool
deriving DecidableEq, Repr

/-- `MemStorage.createGoal` / `DatabaseStorage.createGoal`: insert the goal
with `currentAmount: 0, completed: false` regardless of the request body. -/
def createGoal (r : GoalInsertRequest) : Goal :=
  { currentAmount := 0, targetAmount := r.targetAmount, completed := false }

/-- C6: an allocation that takes a not-yet-completed goal from below its
target to at or above it adds exactly 100 coins, appends exactly one
`goal_met` achievement, and marks the goal completed; and any further update
of an already-completed goal - a second allocation included - changes neither
coins nor achievements. -/
theorem c6_goal_completion_awards_once (st : GoalPutState) (amount : Int)
    (hnot : st.goal.completed = false)
    (_hbelow : st.goal.currentAmount < st.goal.targetAmount)
    (hcross : st.goal.targetAmount ≤ st.goal.currentAmount + amount) :
    ((allocate st amount).userCoins = st.userCoins + 100 ∧
     (allocate st amount).achievements =
       st.achievements ++ [{ type := "goal_met", coinsAwarded := 100 }] ∧
     (allocate st amount).goal.completed = true ∧
     (allocate st amount).goal.currentAmount = st.goal.currentAmount + amount) ∧
    (∀ (s : GoalPutState) (b : GoalUpdateBody), s.goal.completed = true →
      (putGoal s b).userCoins = s.userCoins ∧
      (putGoal s b).achievements = s.achievements) := by
  constructor
  · have hcond : (allocationBody st.goal amount).completed = some true := by
      simp [allocationBody, hcross]
    rw [allocate, putGoal, if_pos ⟨hcond, hnot⟩]
    refine ⟨rfl, rfl, ?_, rfl⟩
    simp [updateGoal, allocationBody, hcross]
  · intro s b hdone
    rw [putGoal, if_neg (by simp [hdone])]
    exact ⟨rfl, rfl⟩

/-- C6 witness: a goal at 50/100 paise receives a 60-paise allocation; the
owner gains exactly 100 coins and one `goal_met` achievement, and a second
60-paise allocation of the now-completed goal changes nothing. -/
theorem c6_goal_completion_awards_once_witness :
    (allocate { userCoins := 7
                goal := { currentAmount := 50, targetAmount := 100, completed := false }
                achievements := [] } 60).userCoins = 7 + 100 ∧
    (allocate { userCoins := 7
                goal := { currentAmount := 50, targetAmount := 100, completed := false }
                achievements := [] } 60).achievements =
      [{ type := "goal_met", coinsAwarded := 100 }] ∧
    (putGoal { userCoins := 107
               goal := { currentAmount := 110, targetAmount := 100, completed := true }
               achievements := [{ type := "goal_met", coinsAwarded := 100 }] }
        { currentAmount := some 170, completed := some true }).userCoins = 107 ∧
    (putGoal { userCoins := 107
               goal := { currentAmount := 110, targetAmount := 100, completed := true }
               achievements := [{ type := "goal_met", coinsAwarded := 100 }] }
        { currentAmount := some 170, completed := some true }).achievements =
      [{ type := "goal_met", coinsAwarded := 100 }] := by
  have h := c6_goal_completion_awards_once
    { userCoins := 7
      goal := { currentAmount := 50, targetAmount := 100, completed := false }
      achievements := [] } 60 rfl (by norm_num) (by norm_num)
  refine ⟨h.1.1, ?_, ?_, ?_⟩
  · rw [h.1.2.1]
    rfl
  · exact (h.2 { userCoins := 107
                 goal := { currentAmount := 110, targetAmount := 100, completed := true }
                 achievements := [{ type := "goal_met", coinsAwarded := 100 }] }
      { currentAmount := some 170, completed := some true } rfl).1
  · exact (h.2 { userCoins := 107
                 goal := { currentAmount := 110, targetAmount := 100, completed := true }
                 achievements := [{ type := "goal_met", coinsAwarded := 100 }] }
      { currentAmount := some 170, completed := some true } rfl).2

/-- C7 counterexample: the update endpoint enforces no monotonicity. Starting
from a freshly created goal, a first PUT marks it completed, and a second PUT
with `completed: false, currentAmount: -5` reverts the completed flag and
decreases `currentAmount` - refuting the one-way-transition /
never-decreasing part of the claim. -/
theorem c7_goal_update_not_monotone :
    (createGoal { targetAmount := 100, currentAmount := some 60, completed := some true }).completed = false ∧
    (putGoal { userCoins := 0
               goal := createGoal { targetAmount := 100, currentAmount := some 60, completed := some true }
               achievements := [] }
        { currentAmount := none, completed := some true }).goal.completed = true ∧
    (putGoal (putGoal { userCoins := 0
                        goal := createGoal { targetAmount := 100, currentAmount := some 60, completed := some true }
                        achievements := [] }
        { currentAmount := none, completed := some true })
        { currentAmount := some (-5), completed := some false }).goal.completed = false ∧
    (putGoal (putGoal { userCoins := 0
                        goal := createGoal { targetAmount := 100, currentAmount := some 60, completed := some true }
                        achievements := [] }
        { currentAmount := none, completed := some true })
        { currentAmount := some (-5), completed := some false }).goal.currentAmount < 0 := by
  refine ⟨rfl, ?_, ?_, ?_⟩ <;> decide

/-- C7 (amended): every goal is created with `currentAmount = 0` and
`completed = false` regardless of client-supplied values, but the update
endpoint merges arbitrary client-supplied fields into the stored goal with no
monotonicity check, so `completed` may revert from true to false and
`currentAmount` may decrease. -/
theorem c7_goal_creation_zeroed_update_unchecked (r : GoalInsertRequest)
    (st : GoalPutState) (b : GoalUpdateBody) :
    (createGoal r).currentAmount = 0 ∧
    (createGoal r).completed = false ∧
    (putGoal st b).goal = updateGoal st.goal b := by
  refine ⟨rfl, rfl, ?_⟩
  rw [putGoal]
  split
  · rfl
  · rfl

/-- One expense row as consumed by the monthly-report aggregation: the
grouping key (its category, or its status for the status breakdown) and the
amount in paise. -/
structure ReportItem where
  key : String
  amount : Int
deriving DecidableEq, Repr

/-- One entry of the report breakdown: group key, summed amount, and the
percentage figure. `Math.round((amount / totalExpenses) * 100)` is NaN (or
±Infinity) when `totalExpenses` is 0; the non-number outcome is modelled as
`none`. -/
structure BreakdownEntry where
  key : String
  amount : Int
  percentage : Option Int
deriving DecidableEq, Repr

/-- The `Record<string, number>` accumulation of `GET /api/monthly-report`:
`if (!acc[key]) acc[key] = 0; acc[key] += amount`, with JavaScript object
string keys enumerating in insertion order. -/
def groupTotals (items : List ReportItem) : List (String × Int) :=
  items.foldl
    (fun acc e =>
      if acc.any (fun p => p.1 == e.key) then
        acc.map (fun p => if p.1 == e.key then (p.1, p.2 + e.amount) else p)
      else acc ++ [(e.key, e.amount)])
    []

/-- `Math.round((amount / totalExpenses) * 100)`: `none` models the NaN /
Infinity produced by a zero divisor. -/
def jsPercentage (amount total : Int) : Option Int :=
  if total = 0 then none else some (jsRound ((amount : ℚ) / total * 100))

/-- `const totalExpenses = monthExpenses.reduce((sum, e) => sum + e.amount, 0)`. -/
def windowTotal (items : List ReportItem) : Int :=
  (items.map (fun e => e.amount)).sum

/-- The category/status breakdown of `GET /api/monthly-report`: group, attach
the percentage of the window total, and `.sort((a, b) => b.amount - a.amount)`
(a stable descending sort, modelled by the stable `mergeSort`). -/
def breakdown (items : List ReportItem) : List BreakdownEntry :=
  ((groupTotals items).map
    (fun p =>
      { key := p.1, amount := p.2
        percentage := jsPercentage p.2 (windowTotal items) })).mergeSort
    (fun a b => decide (b.amount ≤ a.amount))

/-- The month-over-month change of `GET /api/dashboard/summary`:
`if (prevMonthTotal > 0) percentageChange = Math.round(((current - previous) / previous) * 100)`,
with 0 as the default (`GET /api/monthly-report` computes `expenseChange`
with the same guard). -/
def percentageChange (cur prev : Int) : Int :=
  if 0 < prev then jsRound (((cur - prev : Int) : ℚ) / prev * 100) else 0

/-- C8 counterexample: a window whose only expense has amount 0 has window
total 0, yet its breakdown contains a group whose percentage is NaN
(modelled `none`), not 0 - refuting the claim that every percentage is 0
when the window total is 0. -/
theorem c8_zero_total_percentage_not_zero :
    windowTotal [{ key := "other", amount := 0 }] = 0 ∧
    ¬ (∀ e ∈ breakdown [{ key := "other", amount := 0 }],
        e.percentage = some 0) := by
  constructor
  · rfl
  · intro h
    have hmem : ({ key := "other", amount := 0, percentage := none } :
        BreakdownEntry) ∈ breakdown [{ key := "other", amount := 0 }] := by
      simp [breakdown, groupTotals, jsPercentage, windowTotal]
    exact Option.noConfusion (h _ hmem)

/-- C8 (amended): whenever the window total is nonzero, each group's
percentage equals `round(100 × groupSum / windowTotal)`; when the window
total is 0 each present group's percentage is the NaN marker (`none`), not 0
(the breakdown is empty - making the claim vacuously true - only when no
expense falls in the window); the groups are always sorted descending by
amount; and the month-over-month change is `round(100 × (current − previous)
/ previous)` when the previous total is positive and 0 when it is 0. -/
theorem c8_report_aggregation (items : List ReportItem) (cur prev : Int) :
    (windowTotal items ≠ 0 →
      ∀ e ∈ breakdown items,
        e.percentage =
          some (jsRound (100 * (e.amount : ℚ) / (windowTotal items : ℚ)))) ∧
    (windowTotal items = 0 →
      ∀ e ∈ breakdown items, e.percentage = none) ∧
    (breakdown items).Pairwise (fun a b => b.amount ≤ a.amount) ∧
    (0 < prev →
      percentageChange cur prev = jsRound (100 * ((cur : Int) - prev : ℚ) / prev)) ∧
    (prev = 0 → percentageChange cur prev = 0) := by
  refine ⟨?_, ?_, ?_, ?_, ?_⟩
  · intro htot e he
    rw [breakdown, List.mem_mergeSort] at he
    obtain ⟨p, _, hp⟩ := List.mem_map.mp he
    rw [← hp]
    simp only [jsPercentage, if_neg htot]
    congr 1
    ring_nf
  · intro htot e he
    rw [breakdown, List.mem_mergeSort] at he
    obtain ⟨p, _, hp⟩ := List.mem_map.mp he
    rw [← hp]
    simp only [jsPercentage, if_pos htot]
  · have h := @List.sorted_mergeSort BreakdownEntry
      (fun a b => decide (b.amount ≤ a.amount))
      (fun a b c hab hbc => by
        simp only [decide_eq_true_iff] at hab hbc ⊢
        omega)
      (fun a b => by
        simp only [Bool.or_eq_true, decide_eq_true_iff]
        omega)
      ((groupTotals items).map
        (fun p =>
          { key := p.1, amount := p.2
            percentage := jsPercentage p.2 (windowTotal items) }))
    exact h.imp (fun hab => by simpa using hab)
  · intro hpos
    rw [percentageChange, if_pos hpos]
    congr 1
    push_cast
    ring_nf
  · intro hz
    rw [percentageChange, if_neg (by omega)]

/-- C8 witness: a month pair (150, 100) yields the rounded 50 percent
change, a zero previous month yields 0, and a two-category window (600 and
400 paise) has its breakdown sorted descending by amount. -/
theorem c8_report_aggregation_witness :
    percentageChange 150 100 = jsRound (100 * ((150 : Int) - 100 : ℚ) / 100) ∧
    percentageChange 150 0 = 0 ∧
    (breakdown [{ key := "food", amount := 600 },
        { key := "travel", amount := 400 }]).Pairwise
      (fun a b => b.amount ≤ a.amount) := by
  refine ⟨?_, ?_, ?_⟩
  · exact (c8_report_aggregation [] 150 100).2.2.2.1 (by norm_num)
  · exact (c8_report_aggregation [] 150 0).2.2.2.2 rfl
  · exact (c8_report_aggregation
      [{ key := "food", amount := 600 }, { key := "travel", amount := 400 }]
      0 0).2.2.1

/-- `MemStorage.updateUser` / `DatabaseStorage.updateUser` applied to a
`coins` field: the stored value is overwritten with the value supplied by the
caller (`{ ...user, ...data }` / `.set(data)`) - the storage boundary offers
no relative increment. -/
def updateUserCoins (_stored newCoins : Int) : Int := newCoins

/-- The coins value every award handler passes to `updateUser`: the login
handler sends `user.coins + coinsAwarded`, the expense handler
`(user.coins || 0) + 10`, the piggy-bank handler `(user.coins || 0) + 5`,
the goal handler `(user.coins || 0) + 100` - each computed from the user
object captured when the request began, passed as an absolute value. -/
def awardWrite (snapshotCoins delta : Int) : Int := snapshotCoins + delta

/-- Two award requests for the same user run one after the other: the second
request's user snapshot sees the first write. -/
def serialAwards (initial d1 d2 : Int) : Int :=
  updateUserCoins (updateUserCoins initial (awardWrite initial d1))
    (awardWrite (updateUserCoins initial (awardWrite initial d1)) d2)

/-- Two award requests whose user snapshots were both captured before either
write (concurrent requests on the same user): both handlers compute from the
same initial snapshot and the second absolute write overwrites the first. -/
def racedAwards (initial d1 d2 : Int) : Int :=
  updateUserCoins (updateUserCoins initial (awardWrite initial d1))
    (awardWrite initial d2)

/-- C9 counterexample: a 15-coin login award and a 10-coin first-expense
award racing on a user with 0 coins leave the balance at 10, not 25 - the
login award's increment is lost, refuting the claim that awards are applied
as relative adjustments that never lose an increment under concurrency. -/
theorem c9_concurrent_awards_lose_increment :
    racedAwards 0 15 10 = 10 ∧ racedAwards 0 15 10 ≠ 0 + 15 + 10 := by
  constructor
  · rfl
  · decide

/-- C9 (amended): every coin award is applied as a read-then-overwrite - the
handler computes `snapshot + delta` and the storage layer overwrites the
column with that absolute value. Serial executions therefore accumulate
correctly, but two awards computed from the same snapshot keep only the last
delta; in particular the login handler's written balance is exactly its
snapshot's coins plus the awarded delta. -/
theorem c9_awards_are_absolute_snapshot_writes (initial d1 d2 : Int) :
    serialAwards initial d1 d2 = initial + d1 + d2 ∧
    racedAwards initial d1 d2 = initial + d2 ∧
    (∀ (u : User) (now : Int),
      (loginTransition u now).coins =
        awardWrite u.coins (loginTransition u now).coinsAwarded) := by
  refine ⟨rfl, rfl, ?_⟩
  intro u now
  rw [loginTransition]
  split
  · split
    · rfl
    · rfl
  · show u.coins = awardWrite u.coins 0
    rw [awardWrite]
    omega

/-- An expense as consumed by the weekly target calculator
(`generateWeeklyTargets` in `client/src/pages/Savings.tsx`): its date at
whole-day granularity (day numbers divisible by 7 fall on a Monday), its
tier, and its paise amount. -/
structure WExpense where
  day : Int
  status : ExpenseStatus
  amount : Int
deriving DecidableEq, Repr

/-- A saving entry as consumed by the weekly target calculator. -/
structure WSaving where
  day : Int
  amount : Int
deriving DecidableEq, Repr

/-- One record pushed per week: `{ weekStart, weekEnd, target, actual }`. -/
structure WeekRecord where
  weekStart : Int
  weekEnd : Int
  target : Int
  actual : Int
deriving DecidableEq, Repr

/-- `startOfWeek(d, { weekStartsOn: 1 })` at day granularity: step back to
the preceding Monday (`Int` `%` is Euclidean, so `d % 7` is the number of
days since that Monday under the day-0-is-Monday convention). -/
def startOfWeekMon (d : Int) : Int := d - d % 7

/-- `expensesData.expenses.filter(e => weekStart <= date && date <= weekEndDate)`. -/
def weekExpensesIn (expenses : List WExpense) (lo hi : Int) : List WExpense :=
  expenses.filter (fun e => decide (lo ≤ e.day) && decide (e.day ≤ hi))

/-- `weekExpenses.filter(e => e.status === 'avoidable').reduce(sum of amounts)`. -/
def avoidableTotal (l : List WExpense) : Int :=
  ((l.filter (fun e => e.status == ExpenseStatus.avoidable)).map
    (fun e => e.amount)).sum

/-- `weekExpenses.filter(e => e.status === 'unnecessary').reduce(sum of amounts)`. -/
def unnecessaryTotal (l : List WExpense) : Int :=
  ((l.filter (fun e => e.status == ExpenseStatus.unnecessary)).map
    (fun e => e.amount)).sum

/-- `savingsData.savings.filter(s => weekStart <= date && date <= weekEndDate)`. -/
def weekSavingsIn (savings : List WSaving) (lo hi : Int) : List WSaving :=
  savings.filter (fun s => decide (lo ≤ s.day) && decide (s.day ≤ hi))

/-- The body of one iteration of the `generateWeeklyTargets` loop, given the
Monday `ws` of the week and whether this is the current week (`i === 0`):
`target = i === 0 ? Math.round((avoidable + unnecessary) * 0.5) : avoidable +
unnecessary`, `actual` the sum of the week's savings. -/
def weekRecordFor (expenses : List WExpense) (savings : List WSaving)
    (isCurrent : Bool) (ws : Int) : WeekRecord :=
  { weekStart := ws
    weekEnd := ws + 6
    target :=
      if isCurrent then
        jsRound (((avoidableTotal (weekExpensesIn expenses ws (ws + 6)) +
          unnecessaryTotal (weekExpensesIn expenses ws (ws + 6)) : Int) : ℚ) * 0.5)
      else
        avoidableTotal (weekExpensesIn expenses ws (ws + 6)) +
          unnecessaryTotal (weekExpensesIn expenses ws (ws + 6))
    actual := ((weekSavingsIn savings ws (ws + 6)).map (fun s => s.amount)).sum }

/-- Iteration `i` of the loop: `weekEnd = i === 0 ? now : subWeeks(now, i)`
(which is `now - 7 * i` in both arms), `weekStart = startOfWeek(weekEnd)`,
`weekEndDate = endOfWeek(weekEnd)`. -/
def weekRecordAt (expenses : List WExpense) (savings : List WSaving)
    (now : Int) (i : Nat) : WeekRecord :=
  weekRecordFor expenses savings (i == 0) (startOfWeekMon (now - 7 * (i : Int)))

/-- `generateWeeklyTargets` (`client/src/pages/Savings.tsx`): push one record
for `i = 0 .. 5`, then `.reverse()` so the most recent week is last. -/
def generateWeeklyTargets (expenses : List WExpense) (savings : List WSaving)
    (now : Int) : List WeekRecord :=
  ((List.range 6).map (weekRecordAt expenses savings now)).reverse

/-- `calculateSavingsRecommendation` (client AI utilities): 50% of the
avoidable plus unnecessary totals of the given expenses, rounded. -/
def calculateSavingsRecommendation (expenses : List WExpense) : Int :=
  jsRound (((avoidableTotal expenses + unnecessaryTotal expenses : Int) : ℚ) * 0.5)

/-- Sum of the amounts of one tier's expenses inside an inclusive day window,
as the claim states it (the predicate is stated tier-first to match the
two-stage filter of the source). -/
def tierSum (expenses : List WExpense) (s : ExpenseStatus) (lo hi : Int) : Int :=
  ((expenses.filter (fun e => (e.status == s) &&
    (decide (lo ≤ e.day) && decide (e.day ≤ hi)))).map (fun e => e.amount)).sum

/-- Sum of the saving amounts dated inside an inclusive day window, as the
claim states it. -/
def savedSum (savings : List WSaving) (lo hi : Int) : Int :=
  ((savings.filter (fun s => decide (lo ≤ s.day) && decide (s.day ≤ hi))).map
    (fun s => s.amount)).sum

/-- The weekly record the claim describes, indexed oldest-first
(`j = 0` is the oldest of the six trailing weeks, `j = 5` the current one):
Monday-aligned window, target = the week's own avoidable+unnecessary total
for past weeks and its 50%-rounded discount for the current week, actual =
the week's savings sum. -/
def claimWeekRecord (expenses : List WExpense) (savings : List WSaving)
    (now : Int) (j : Nat) : WeekRecord :=
  { weekStart := startOfWeekMon now - 7 * (5 - (j : Int))
    weekEnd := startOfWeekMon now - 7 * (5 - (j : Int)) + 6
    target :=
      if j = 5 then
        jsRound (((tierSum expenses ExpenseStatus.avoidable
            (startOfWeekMon now - 7 * (5 - (j : Int)))
            (startOfWeekMon now - 7 * (5 - (j : Int)) + 6) +
          tierSum expenses ExpenseStatus.unnecessary
            (startOfWeekMon now - 7 * (5 - (j : Int)))
            (startOfWeekMon now - 7 * (5 - (j : Int)) + 6) : Int) : ℚ) * 0.5)
      else
        tierSum expenses ExpenseStatus.avoidable
            (startOfWeekMon now - 7 * (5 - (j : Int)))
            (startOfWeekMon now - 7 * (5 - (j : Int)) + 6) +
          tierSum expenses ExpenseStatus.unnecessary
            (startOfWeekMon now - 7 * (5 - (j : Int)))
            (startOfWeekMon now - 7 * (5 - (j : Int)) + 6)
    actual := savedSum savings (startOfWeekMon now - 7 * (5 - (j : Int)))
      (startOfWeekMon now - 7 * (5 - (j : Int)) + 6) }

/-- Two-stage filtering (window then tier) equals the claim's one-pass
tier-in-window sum. -/
lemma avoidableTotal_weekExpensesIn (es : List WExpense) (lo hi : Int) :
    avoidableTotal (weekExpensesIn es lo hi) =
      tierSum es ExpenseStatus.avoidable lo hi := by
  rw [avoidableTotal, weekExpensesIn, tierSum, List.filter_filter]

/-- Two-stage filtering (window then tier) equals the claim's one-pass
tier-in-window sum. -/
lemma unnecessaryTotal_weekExpensesIn (es : List WExpense) (lo hi : Int) :
    unnecessaryTotal (weekExpensesIn es lo hi) =
      tierSum es ExpenseStatus.unnecessary lo hi := by
  rw [unnecessaryTotal, weekExpensesIn, tierSum, List.filter_filter]

/-- Stepping a whole number of weeks back commutes with Monday alignment. -/
lemma startOfWeekMon_sub_weeks (d k : Int) :
    startOfWeekMon (d - 7 * k) = startOfWeekMon d - 7 * k := by
  rw [startOfWeekMon, startOfWeekMon]
  omega

/-- Loop iteration `i` produces exactly the claim's record for oldest-first
index `5 - i`. -/
lemma weekRecordAt_eq_claim (es : List WExpense) (ss : List WSaving)
    (now : Int) (i : Nat) (h : i < 6) :
    weekRecordAt es ss now i = claimWeekRecord es ss now (5 - i) := by
  have e1 : (5 : Int) - ((5 - i : Nat) : Int) = (i : Int) := by omega
  have hcond : ((i == 0) = true) ↔ ((5 - i) = 5) := by
    simp only [beq_iff_eq]
    omega
  rw [weekRecordAt, weekRecordFor, claimWeekRecord, e1,
    startOfWeekMon_sub_weeks,
    avoidableTotal_weekExpensesIn, unnecessaryTotal_weekExpensesIn,
    savedSum, weekSavingsIn]
  simp only [hcond]

/-- C4: the weekly history is exactly one record per trailing Monday-aligned
week, ordered oldest to newest: it equals the oldest-first sequence of the
claim's records (current week's target the 50%-rounded discount, past weeks'
targets their own avoidable+unnecessary totals, actuals the weekly saving
sums); week starts are strictly increasing and Monday-aligned with
`weekEnd = weekStart + 6`; the current week's target is
`calculateSavingsRecommendation` of the current week's expenses; and
avoidable ₹200 plus unnecessary ₹100 in the current week yield a target of
15000 minor units. -/
theorem c4_weekly_targets (es : List WExpense) (ss : List WSaving) (now : Int) :
    generateWeeklyTargets es ss now =
      (List.range 6).map (claimWeekRecord es ss now) ∧
    (generateWeeklyTargets es ss now).Pairwise
      (fun a b => a.weekStart < b.weekStart) ∧
    (∀ w ∈ generateWeeklyTargets es ss now,
      w.weekStart % 7 = 0 ∧ w.weekEnd = w.weekStart + 6) ∧
    (generateWeeklyTargets es ss now).getLast?.map (fun w => w.target) =
      some (calculateSavingsRecommendation
        (weekExpensesIn es (startOfWeekMon now) (startOfWeekMon now + 6))) ∧
    (generateWeeklyTargets
        [{ day := 8, status := ExpenseStatus.avoidable, amount := 20000 },
         { day := 7, status := ExpenseStatus.unnecessary, amount := 10000 }]
        [] 9).getLast?.map (fun w => w.target) = some 15000 := by
  have hEq : generateWeeklyTargets es ss now =
      (List.range 6).map (claimWeekRecord es ss now) := by
    show [weekRecordAt es ss now 5, weekRecordAt es ss now 4,
        weekRecordAt es ss now 3, weekRecordAt es ss now 2,
        weekRecordAt es ss now 1, weekRecordAt es ss now 0] =
      [claimWeekRecord es ss now 0, claimWeekRecord es ss now 1,
        claimWeekRecord es ss now 2, claimWeekRecord es ss now 3,
        claimWeekRecord es ss now 4, claimWeekRecord es ss now 5]
    rw [weekRecordAt_eq_claim es ss now 5 (by norm_num),
      weekRecordAt_eq_claim es ss now 4 (by norm_num),
      weekRecordAt_eq_claim es ss now 3 (by norm_num),
      weekRecordAt_eq_claim es ss now 2 (by norm_num),
      weekRecordAt_eq_claim es ss now 1 (by norm_num),
      weekRecordAt_eq_claim es ss now 0 (by norm_num)]
  refine ⟨hEq, ?_, ?_, ?_, ?_⟩
  · rw [hEq, List.pairwise_map]
    refine (List.pairwise_lt_range 6).imp ?_
    intro a b hab
    show startOfWeekMon now - 7 * (5 - (a : Int)) <
      startOfWeekMon now - 7 * (5 - (b : Int))
    omega
  · intro w hw
    rw [hEq] at hw
    obtain ⟨j, hj, rfl⟩ := List.mem_map.mp hw
    constructor
    · show (startOfWeekMon now - 7 * (5 - (j : Int))) % 7 = 0
      rw [startOfWeekMon]
      omega
    · rfl
  · show some (weekRecordAt es ss now 0).target = _
    rw [weekRecordAt]
    have h0 : startOfWeekMon (now - 7 * ((0 : Nat) : Int)) = startOfWeekMon now := by
      rw [startOfWeekMon, startOfWeekMon]
      omega
    rw [h0]
    rfl
  · show some (weekRecordAt
        [{ day := 8, status := ExpenseStatus.avoidable, amount := 20000 },
         { day := 7, status := ExpenseStatus.unnecessary, amount := 10000 }]
        [] 9 0).target = some 15000
    have hws : startOfWeekMon (9 - 7 * ((0 : Nat) : Int)) = 7 := by
      rw [startOfWeekMon]
      decide
    rw [weekRecordAt, weekRecordFor, hws]
    have hav : avoidableTotal (weekExpensesIn
        [{ day := 8, status := ExpenseStatus.avoidable, amount := 20000 },
         { day := 7, status := ExpenseStatus.unnecessary, amount := 10000 }] 7 (7 + 6)) =
        20000 := by decide
    have hun : unnecessaryTotal (weekExpensesIn
        [{ day := 8, status := ExpenseStatus.avoidable, amount := 20000 },
         { day := 7, status := ExpenseStatus.unnecessary, amount := 10000 }] 7 (7 + 6)) =
        10000 := by decide
    simp only [if_true, hav, hun]
    norm_num [jsRound]

/-- C4 witness: at `now = 9` (a Wednesday two days after the Monday of day
7), with one avoidable expense of 20000 paise and one unnecessary expense of
10000 paise in the current week, the history has six records oldest first and
the last record's target is 15000 minor units. -/
theorem c4_weekly_targets_witness :
    (generateWeeklyTargets
        [{ day := 8, status := ExpenseStatus.avoidable, amount := 20000 },
         { day := 7, status := ExpenseStatus.unnecessary, amount := 10000 }]
        [] 9).length = 6 ∧
    (generateWeeklyTargets
        [{ day := 8, status := ExpenseStatus.avoidable, amount := 20000 },
         { day := 7, status := ExpenseStatus.unnecessary, amount := 10000 }]
        [] 9).getLast?.map (fun w => w.target) = some 15000 := by
  have h := c4_weekly_targets
    [{ day := 8, status := ExpenseStatus.avoidable, amount := 20000 },
     { day := 7, status := ExpenseStatus.unnecessary, amount := 10000 }] [] 9
  constructor
  · rw [h.1]
    rfl
  · exact h.2.2.2.2

end WealthWise
